import Mathlib

/-!
Verification of the LIVI gateway (`src/main.py`) against its specification.

The Python program is shallowly embedded: JSON-representable Python values
become the inductive `JVal` (JSON numbers are modelled as `Int`; no claim
involves fractional values), Python dicts whose keys originate from JSON
objects or from `default_state()` become association lists with `String`
keys, the filesystem of per-device state files becomes a map from paths to
`FileContent` (a file either is absent, fails `json.load`, or parses to a
`JVal` — `json.dump` of a JSON-representable dict followed by `json.load`
is the identity, so serialisation is cut at this boundary), and a Python
statement that can raise becomes an `Except PyErr` value.
-/

/-- A JSON-representable Python value, as produced by `json.loads`. -/
inductive JVal where
  | jnull : JVal
  | jbool : Bool → JVal
  | jnum : Int → JVal
  | jstr : String → JVal
  | jarr : List JVal → JVal
  | jobj : List (String × JVal) → JVal
deriving Repr

/-- Exceptions the embedded code can raise.  `invalidRouter` is the
`ValueError("Invalid router response")` raised at line 182 of `main.py`;
the others stand for Python `TypeError`, `ValueError` and `AttributeError`
raised by the standard library operations the code invokes. -/
inductive PyErr where
  | invalidRouter : PyErr
  | typeError : PyErr
  | valueError : PyErr
  | attributeError : PyErr
deriving DecidableEq, Repr

/-- A Python dict with string keys (every dict in the program originates
from a parsed JSON object, from `default_state()`, or from Flask's
`to_dict`, all of which have string keys). -/
abbrev Dict := List (String × JVal)

/-- One stored file: absent, present but not valid JSON, or valid JSON. -/
inductive FileContent where
  | absent : FileContent
  | malformed : FileContent
  | json : JVal → FileContent

/-- The state directory: contents of each path. -/
abbrev FS := String → FileContent

/-- Lookup in an association list: Python `d[k]` / `d.get(k)` (first
occurrence; lists built by `dset` keep keys unique, matching dicts). -/
def dget {α : Type} : List (String × α) → String → Option α
  | [], _ => none
  | (k', v) :: rest, k => if k' = k then some v else dget rest k

/-- Python `d[k] = v`: replace the first binding of `k` in place, or append
a new binding (CPython dicts keep the position of an existing key and
append new keys). -/
def dset {α : Type} : List (String × α) → String → α → List (String × α)
  | [], k, v => [(k, v)]
  | (k', w) :: rest, k, v =>
    if k' = k then (k', v) :: rest else (k', w) :: dset rest k v

/-- Value of the last binding of a key in a sequence of pairs (when a key
repeats, the latest assignment wins, as in iterated `d[k] = v`). -/
def lookupLast {α : Type} : List (String × α) → String → Option α
  | [], _ => none
  | (k', v) :: rest, k =>
    match lookupLast rest k with
    | some w => some w
    | none => if k' = k then some v else none

/-- Python `d.update(other)` for a dict argument: assign every binding of
`other` into `d`, in order. -/
def dictUpdate {α : Type} (d e : List (String × α)) : List (String × α) :=
  e.foldl (fun a p => dset a p.1 p.2) d

/-- Python truthiness (`bool(v)`) of a JSON-representable value. -/
def pyTruthy : JVal → Bool
  | .jnull => false
  | .jbool b => b
  | .jnum n => !(n == 0)
  | .jstr s => !s.toList.isEmpty
  | .jarr xs => !xs.isEmpty
  | .jobj fs => !fs.isEmpty

/-- Truthiness of the result of `d.get(k)` (a missing key gives `None`,
which is falsy). -/
def pyTruthyOpt : Option JVal → Bool
  | none => false
  | some v => pyTruthy v

/-- Python `s.strip()`: drop whitespace from both ends.  (Python also
strips `\v`, `\f` and Unicode spaces, which `Char.isWhitespace` does not
cover; no claim distinguishes them.) -/
def pyStrip (s : String) : String :=
  String.mk
    (((s.toList.dropWhile Char.isWhitespace).reverse.dropWhile
      Char.isWhitespace).reverse)

/-- Conversion of one element of a `dict.update` sequence argument into a
key/value pair, as CPython does when `update` is given a non-mapping:
a 2-element array with a string key, a 2-character string, or a 2-key
object each unpack into a pair; any other element raises.  (CPython also
accepts numeric, boolean and `None` keys from 2-element arrays; those
produce dicts with non-string keys, which no value in this program can
reach, and are modelled as the `TypeError` raised for unhashable keys.) -/
def pairOfElem : JVal → Except PyErr (String × JVal)
  | .jarr [.jstr k, v] => .ok (k, v)
  | .jarr [_, _] => .error .typeError
  | .jarr _ => .error .valueError
  | .jstr s =>
    match s.toList with
    | [a, b] => .ok (String.mk [a], .jstr (String.mk [b]))
    | _ => .error .valueError
  | .jobj [(k1, _), (k2, _)] => .ok (k1, .jstr k2)
  | .jobj _ => .error .valueError
  | _ => .error .typeError

/-- Python `d.update(seq)` over a sequence of pair-like elements. -/
def updatePairs (d : Dict) : List JVal → Except PyErr Dict
  | [] => .ok d
  | e :: rest =>
    match pairOfElem e with
    | .error err => .error err
    | .ok p => updatePairs (dset d p.1 p.2) rest

/-- Python `d.update(v)` for an arbitrary JSON-representable argument:
a JSON object merges as a mapping; an array or a string merges as a
sequence of pair-like elements; `None`, booleans and numbers are not
iterable and raise `TypeError`. -/
def pyUpdate (d : Dict) : JVal → Except PyErr Dict
  | .jobj fs => .ok (dictUpdate d fs)
  | .jarr xs => updatePairs d xs
  | .jstr s => updatePairs d (s.toList.map fun c => JVal.jstr (String.mk [c]))
  | _ => .error .typeError

/-- The state directory (`LIVI_STATE_DIR` default, `main.py` line 56). -/
def STATE_DIR : String := "/tmp/livi_state"

/-- `default_state()` (`main.py` lines 67-83): the all-default DeviceState. -/
def default_state : Dict :=
  [("need_image", .jbool false),
   ("request_id", .jstr ""),
   ("prompt", .jstr ""),
   ("image_request", .jstr ""),
   ("last_image_path", .jstr ""),
   ("last_image_mime", .jstr ""),
   ("last_image_size", .jnum 0),
   ("last_response", .jstr ""),
   ("last_audio_base64", .jstr ""),
   ("last_audio_id", .jstr ""),
   ("last_audio_format", .jstr ""),
   ("last_audio_mime", .jstr ""),
   ("last_audio_error", .jstr ""),
   ("updated_at", .jnull)]

/-- A character kept by the sanitizer at `main.py` line 87.  Python's
`str.isalnum` is Unicode-aware where `Char.isAlphanum` is ASCII; every
property proved below holds for any such character predicate. -/
def keptChar (c : Char) : Bool :=
  c.isAlphanum || c == '-' || c == '_'

/-- The device-identifier sanitization inside `state_path` (`main.py`
lines 87-89): keep only alphanumeric, `-` and `_` characters; an empty
result maps to the reserved key. -/
def sanitize_device_id (device_id : String) : String :=
  let safe := device_id.toList.filter keptChar
  if safe.isEmpty then "default" else String.mk safe

/-- `state_path` (`main.py` lines 86-90). -/
def state_path (device_id : String) : String :=
  STATE_DIR ++ "/" ++ sanitize_device_id device_id ++ ".json"

/-- `load_state` (`main.py` lines 93-102): read and parse the backing
file, merge the parsed data over a fresh default record with
`s.update(data or {})`; on any exception (missing file, parse failure, or
a failing merge) return the default record. -/
def load_state (fs : FS) (device_id : String) : Dict :=
  match fs (state_path device_id) with
  | .absent => default_state
  | .malformed => default_state
  | .json data =>
    let arg := if pyTruthy data then data else .jobj []
    match pyUpdate default_state arg with
    | .ok s => s
    | .error _ => default_state

/-- `save_state` (`main.py` lines 105-110): serialise the record and
atomically replace the file at `state_path(device_id)`.  In a crash-free
run the temporary-file-then-`os.replace` sequence is the direct update
modelled here; every `Dict` is JSON-serialisable, so `json.dump` cannot
fail, and reparsing what it wrote yields the same value. -/
def save_state (fs : FS) (device_id : String) (state : Dict) : FS :=
  fun p => if p = state_path device_id then .json (.jobj state) else fs p

/-- `get_payload` (`main.py` lines 117-125).  `is_json` is `req.is_json`;
`body` is the result of `req.get_json(silent=True)` (`none` when the body
is not valid JSON); `form` and `args` are the form and query-string dicts
(string-valued, per `to_dict(flat=True)`).  The three `payload.update`
calls run in order JSON body, form, query string; `update` with a truthy
non-mapping JSON body can raise, which propagates to the route. -/
def json_step (is_json : Bool) (body : Option JVal) : Except PyErr Dict :=
  if is_json then
    pyUpdate [] (match body with
      | none => .jobj []
      | some v => if pyTruthy v then v else .jobj [])
  else .ok []

def get_payload (is_json : Bool) (body : Option JVal)
    (form args : List (String × String)) : Except PyErr Dict :=
  match json_step is_json body with
  | .error e => .error e
  | .ok p1 =>
    let p2 := if form.isEmpty then p1
      else dictUpdate p1 (form.map fun q => (q.1, JVal.jstr q.2))
    let p3 := if args.isEmpty then p2
      else dictUpdate p2 (args.map fun q => (q.1, JVal.jstr q.2))
    .ok p3

/-- The routing decision (`main.py` lines 184-188). -/
structure Decision where
  needs_image : Bool
  image_request : String
  assistant_response : String
deriving DecidableEq, Repr

/-- The Python expression `(x or "").strip()` applied to the result of a
`d.get(key)` (`main.py` lines 186-187 and 236): a missing key or a falsy
value is replaced by the empty string; a truthy string is trimmed; a
truthy non-string has no `.strip` attribute and raises. -/
def py_or_empty_strip (o : Option JVal) : Except PyErr String :=
  let v := match o with
    | none => JVal.jstr ""
    | some w => if pyTruthy w then w else JVal.jstr ""
  match v with
  | .jstr s => .ok (pyStrip s)
  | _ => .error .attributeError

/-- The Decision dict literal of `route_transcript` (`main.py` lines
184-188): `needs_image` is the truthy coercion of its value, the two
string fields are `(... or "").strip()` of theirs (evaluated in order;
the first failing `.strip()` raises). -/
def decide_fields (fields : Dict) : Except PyErr Decision :=
  match py_or_empty_strip (dget fields "image_request") with
  | .error e => .error e
  | .ok ir =>
    match py_or_empty_strip (dget fields "assistant_response") with
    | .error e => .error e
    | .ok ar =>
      .ok ⟨pyTruthyOpt (dget fields "needs_image"), ir, ar⟩

/-- The `parsed.get` dispatch: on a parsed dict the Decision literal is
built; `.get` on any other Python value raises `AttributeError`. -/
def parsed_get_branch (v : JVal) : Except PyErr Decision :=
  match v with
  | .jobj fields => decide_fields fields
  | _ => .error .attributeError

/-- The decision stage of `route_transcript` (`main.py` lines 179-188),
taking the result of `safe_json_parse(raw)` as input (`none` exactly when
the normalized model output is not syntactically valid JSON; lines
133-137 wrap `json.loads` and return `None` on any parse failure).
`if not parsed` raises the distinct error when the parse failed or the
parsed value is falsy; otherwise the Decision literal is built. -/
def route_from_parsed (parsed : Option JVal) : Except PyErr Decision :=
  match parsed with
  | none => .error .invalidRouter
  | some v =>
    if pyTruthy v then parsed_get_branch v
    else .error .invalidRouter

/-- Whether a `d.get` result is a string or falsy — exactly the values on
which `(x or "").strip()` cannot raise. -/
def is_str_or_falsy : Option JVal → Bool
  | none => true
  | some (.jstr _) => true
  | some v => !pyTruthy v

/-- The value `(x or "").strip()` produces when it does not raise. -/
def trim_or_empty : Option JVal → String
  | none => ""
  | some w =>
    if pyTruthy w then
      match w with
      | .jstr s => pyStrip s
      | _ => ""
    else ""

/-- One content item of a model-response output segment; `text` is
`getattr(c, "text", None)` (collapsing a missing attribute and `None`,
which the code cannot distinguish afterwards). -/
structure ContentItem where
  text : Option JVal

/-- One output segment; `content` is `getattr(item, "content", [])`
followed by `or []`, so a missing or `None` attribute is the empty list. -/
structure OutputItem where
  content : Option (List ContentItem)

/-- A model-response object as `get_output_text` probes it: the aggregated
`output_text` attribute (any value or absent) and the `output` list of
segments (absent or `None` collapses to the empty list via `or []`). -/
structure ModelResp where
  output_text : Option JVal
  output : Option (List OutputItem)

/-- Loop body of the fragment collection (`main.py` lines 149-151):
append `t.strip()` when the item text is a string with non-whitespace
content. -/
def texts_step (acc : List String) (c : ContentItem) : List String :=
  match c.text with
  | some (.jstr t) => if pyStrip t ≠ "" then acc ++ [pyStrip t] else acc
  | _ => acc

/-- The `texts` list built by the nested loops of `get_output_text`
(`main.py` lines 145-153). -/
def router_texts (resp : ModelResp) : List String :=
  (resp.output.getD []).foldl
    (fun acc item => (item.content.getD []).foldl texts_step acc) []

/-- `get_output_text` (`main.py` lines 140-154): return the aggregated
text trimmed when it is a string with non-whitespace content, otherwise
join the collected fragments with newline and trim the whole.  With the
attribute shapes modelled here the guarded traversal cannot raise, so the
`except` at line 152 (which swallows an error and keeps partial results)
never fires; the function is total. -/
def get_output_text (resp : ModelResp) : String :=
  match resp.output_text with
  | some (.jstr s) =>
    if pyStrip s ≠ "" then pyStrip s
    else pyStrip (String.intercalate "\n" (router_texts resp))
  | _ => pyStrip (String.intercalate "\n" (router_texts resp))

/-- Modelled from the spec (section 4.1, for the refinement claim about
the Normalizer): the non-whitespace text fragment contributed by one
content item, trimmed. -/
def fragment_of (c : ContentItem) : Option String :=
  match c.text with
  | some (.jstr t) => if pyStrip t = "" then none else some (pyStrip t)
  | _ => none

/-- Modelled from the spec: all non-whitespace fragments of the ordered
output segments, in order. -/
def spec_fragments (resp : ModelResp) : List String :=
  (resp.output.getD []).flatMap fun item =>
    (item.content.getD []).filterMap fragment_of

/-- Modelled from the spec (section 4.1): if the aggregated text field
holds a string with non-whitespace content, return it trimmed; otherwise
join the non-whitespace fragments with newline and trim the whole. -/
def normalizer_spec (resp : ModelResp) : String :=
  match resp.output_text with
  | some (.jstr s) =>
    if pyStrip s ≠ "" then pyStrip s
    else pyStrip (String.intercalate "\n" (spec_fragments resp))
  | _ => pyStrip (String.intercalate "\n" (spec_fragments resp))

/-- An HTTP response of the transcript route: a 200 with the decision as
its JSON body, or an error status with a message. -/
inductive HttpResp where
  | ok : Decision → HttpResp
  | err : Nat → String → HttpResp
deriving DecidableEq, Repr

/-- `str(e)` for the exceptions surfaced by the route's `except` clause
(only `invalidRouter` has a message any claim mentions). -/
def pyErrMsg : PyErr → String
  | .invalidRouter => "Invalid router response"
  | .typeError => "TypeError"
  | .valueError => "ValueError"
  | .attributeError => "AttributeError"

/-- The `POST /livi/transcript` handler (`main.py` lines 233-244).
`payload` is the dict `get_payload(request)` returned; `routerOut` is the
outcome of the `route_transcript(transcript_text)` call (the single
external model call).  The handler reads the transcript with
`(p.get("transcript") or "").strip()`, answers 400 on an empty result,
otherwise returns the decision as JSON or a 500 with the error message.
No statement of the handler touches the state store — neither
`load_state` nor `save_state` is called anywhere in lines 233-244 (or by
any other live code path), so the filesystem component is returned
unchanged. -/
def transcript_route (fs : FS) (payload : Dict)
    (routerOut : Except PyErr Decision) : FS × HttpResp :=
  match py_or_empty_strip (dget payload "transcript") with
  | .error e => (fs, .err 500 (pyErrMsg e))
  | .ok t =>
    if t = "" then (fs, .err 400 "Missing transcript")
    else
      match routerOut with
      | .ok d => (fs, .ok d)
      | .error e => (fs, .err 500 (pyErrMsg e))

/-- Extensional equality of dicts: the Python `==` on dicts compares key
sets and values, not insertion order. -/
def DictEq (d₁ d₂ : Dict) : Prop := ∀ k, dget d₁ k = dget d₂ k

/-- All schema keys of the default record are present in `S`. -/
def schema_keys_present (S : Dict) : Bool :=
  default_state.all fun p => (dget S p.1).isSome

/-- Whether a `d.get` result is a non-empty string. -/
def nonempty_str : Option JVal → Bool
  | some (.jstr s) => !s.toList.isEmpty
  | _ => false

/-- The section-3 invariant, as a boolean: a truthy `need_image` implies
non-empty `request_id` and `image_request` strings. -/
def need_image_invariant (s : Dict) : Bool :=
  !pyTruthyOpt (dget s "need_image") ||
    (nonempty_str (dget s "request_id") && nonempty_str (dget s "image_request"))

/-- A JSON value that is neither an object nor a non-empty array (the
shapes for which the merge in `load_state` always falls back to the
default record). -/
def not_obj_nor_nonempty_arr : JVal → Bool
  | .jobj _ => false
  | .jarr (_ :: _) => false
  | _ => true

/-- An empty state directory. -/
def fs_empty : FS := fun _ => .absent

/-- A state directory whose file for device `dev` asserts `need_image`
without a `request_id` (counterexample input for the invariant claim). -/
def fs_need_only : FS := fun p =>
  if p = state_path "dev" then .json (.jobj [("need_image", .jbool true)])
  else .absent

/-- A state directory whose file for device `dev` holds a JSON array of
one key/value pair (counterexample input for the non-object merge
claim). -/
def fs_pair_array : FS := fun p =>
  if p = state_path "dev" then
    .json (.jarr [.jarr [.jstr "need_image", .jbool true]])
  else .absent

/-- A state directory whose file for device `dev` holds the number 7
(witness input for the non-object merge claim). -/
def fs_number : FS := fun p =>
  if p = state_path "dev" then .json (.jnum 7) else .absent

/-! ## Helper lemmas -/

theorem dget_dset {α : Type} (d : List (String × α)) (k k' : String) (v : α) :
    dget (dset d k v) k' = if k = k' then some v else dget d k' := by
  induction d with
  | nil => simp [dset, dget]
  | cons p rest ih =>
    obtain ⟨k'', w⟩ := p
    by_cases h : k'' = k
    · subst h
      simp only [dset, if_pos rfl, dget]
      by_cases h' : k'' = k'
      · subst h'; simp
      · simp [h', dget]
    · simp only [dset, if_neg h, dget]
      by_cases h' : k'' = k'
      · subst h'
        have : ¬ k = k'' := fun hk => h hk.symm
        simp [this]
      · simp [h', ih]

theorem dget_dictUpdate {α : Type} (e d : List (String × α)) (k : String) :
    dget (dictUpdate d e) k =
      match lookupLast e k with
      | some v => some v
      | none => dget d k := by
  induction e generalizing d with
  | nil => simp [dictUpdate, lookupLast]
  | cons p rest ih =>
    obtain ⟨k', v⟩ := p
    show dget (dictUpdate (dset d k' v) rest) k = _
    rw [ih]
    cases h : lookupLast rest k with
    | some w => simp [lookupLast, h]
    | none =>
      simp only [lookupLast, h, dget_dset]
      by_cases hk : k' = k
      · subst hk; simp
      · simp [hk]

theorem lookupLast_map {α β : Type} (e : List (String × β)) (f : β → α) (k : String) :
    lookupLast (e.map fun p => (p.1, f p.2)) k = (lookupLast e k).map f := by
  induction e with
  | nil => simp [lookupLast]
  | cons p rest ih =>
    simp only [List.map_cons, lookupLast, ih]
    cases lookupLast rest k with
    | some w => simp
    | none => by_cases h : p.1 = k <;> simp [h]

theorem dget_some_key_mem {α : Type} (d : List (String × α)) (k : String) (v : α)
    (h : dget d k = some v) : k ∈ d.map Prod.fst := by
  induction d with
  | nil => simp [dget] at h
  | cons p rest ih =>
    simp only [dget] at h
    by_cases hk : p.1 = k
    · simp [hk]
    · simp only [if_neg hk] at h
      simp [ih h]

theorem lookupLast_eq_dget_of_nodup {α : Type} (d : List (String × α))
    (h : (d.map Prod.fst).Nodup) (k : String) : lookupLast d k = dget d k := by
  induction d with
  | nil => rfl
  | cons p rest ih =>
    simp only [List.map_cons, List.nodup_cons] at h
    obtain ⟨hmem, hnd⟩ := h
    simp only [lookupLast, dget, ih hnd]
    cases hr : dget rest k with
    | some w =>
      have hk : k ∈ rest.map Prod.fst := dget_some_key_mem rest k w hr
      have hne : p.1 ≠ k := fun he => hmem (he ▸ hk)
      simp [hne]
    | none => simp

theorem load_state_of_absent (fs : FS) (id : String)
    (h : fs (state_path id) = .absent) : load_state fs id = default_state := by
  unfold load_state
  rw [h]

theorem load_state_of_malformed (fs : FS) (id : String)
    (h : fs (state_path id) = .malformed) : load_state fs id = default_state := by
  unfold load_state
  rw [h]

theorem py_or_empty_strip_shape (o : Option JVal) :
    py_or_empty_strip o = .ok (trim_or_empty o) ∨
    py_or_empty_strip o = .error .attributeError := by
  cases o with
  | none => exact Or.inl rfl
  | some w =>
    cases w with
    | jnull => exact Or.inl rfl
    | jbool b =>
      cases b
      · exact Or.inl rfl
      · exact Or.inr rfl
    | jnum n =>
      by_cases hn : n = 0
      · subst hn; exact Or.inl rfl
      · have hb : (n == 0) = false := by simpa using hn
        refine Or.inr ?_
        simp [py_or_empty_strip, pyTruthy, hb]
    | jstr s =>
      obtain ⟨l⟩ := s
      cases l
      · exact Or.inl rfl
      · exact Or.inl rfl
    | jarr xs =>
      cases xs
      · exact Or.inl rfl
      · exact Or.inr rfl
    | jobj fs =>
      cases fs
      · exact Or.inl rfl
      · exact Or.inr rfl

theorem py_or_empty_strip_of_str_or_falsy (o : Option JVal)
    (h : is_str_or_falsy o = true) :
    py_or_empty_strip o = .ok (trim_or_empty o) := by
  cases o with
  | none => rfl
  | some w =>
    cases w with
    | jnull => rfl
    | jbool b =>
      cases b
      · rfl
      · simp [is_str_or_falsy, pyTruthy] at h
    | jnum n =>
      by_cases hn : n = 0
      · subst hn; rfl
      · have hb : (n == 0) = false := by simpa using hn
        simp [is_str_or_falsy, pyTruthy, hb] at h
    | jstr s =>
      obtain ⟨l⟩ := s
      cases l
      · rfl
      · rfl
    | jarr xs =>
      cases xs
      · rfl
      · simp [is_str_or_falsy, pyTruthy] at h
    | jobj fs =>
      cases fs
      · rfl
      · simp [is_str_or_falsy, pyTruthy] at h

theorem py_or_empty_strip_ne_invalid (o : Option JVal) :
    py_or_empty_strip o ≠ .error .invalidRouter := by
  rcases py_or_empty_strip_shape o with hok | herr
  · rw [hok]; simp
  · rw [herr]; simp

/-! ## Claim theorems -/

/-- Claim C7: the device-identifier sanitization (keep only alphanumeric,
`-` and `_` characters; map an empty result to the reserved key
`"default"`) is idempotent — sanitizing `sanitize(s)` equals
`sanitize(s)` for every string `s` — and every string containing no kept
character sanitizes to the reserved `"default"` key. -/
theorem sanitize_idempotent_and_default (s : String) :
    sanitize_device_id (sanitize_device_id s) = sanitize_device_id s ∧
    (s.toList.all (fun c => !keptChar c) = true →
      sanitize_device_id s = "default") := by
  have sanitize_eq : ∀ t : String, sanitize_device_id t =
      if (t.toList.filter keptChar).isEmpty then "default"
      else String.mk (t.toList.filter keptChar) := fun t => rfl
  constructor
  · cases hf : s.toList.filter keptChar with
    | nil =>
      have h1 : sanitize_device_id s = "default" := by
        rw [sanitize_eq, hf]
        rfl
      rw [h1]
      rfl
    | cons c cs =>
      have h1 : sanitize_device_id s = String.mk (c :: cs) := by
        rw [sanitize_eq, hf]
        rfl
      have h3 : (c :: cs).filter keptChar = c :: cs := by
        apply List.filter_eq_self.mpr
        intro a ha
        rw [← hf] at ha
        exact List.of_mem_filter ha
      rw [h1, sanitize_eq]
      have htl : (String.mk (c :: cs)).toList = c :: cs := rfl
      rw [htl, h3]
      rfl
  · intro h
    have hnil : s.toList.filter keptChar = [] := by
      apply List.filter_eq_nil_iff.mpr
      intro a ha
      have ha2 := List.all_eq_true.mp h a ha
      simp only [Bool.not_eq_true'] at ha2
      simp [ha2]
    rw [sanitize_eq, hnil]
    rfl

/-- Witness for C7 at concrete inputs. -/
theorem sanitize_idempotent_and_default_witness :
    sanitize_device_id (sanitize_device_id "ab!c") = sanitize_device_id "ab!c" ∧
    sanitize_device_id "@@" = "default" :=
  ⟨(sanitize_idempotent_and_default "ab!c").1,
   (sanitize_idempotent_and_default "@@").2 (by decide)⟩

/-- Claim C6: for every device identifier, `load_state` returns the
all-default DeviceState whenever the backing file is absent or its
contents fail to parse as JSON; the recovery is silent — `load_state` is
a total function into records, no exception reaches the caller. -/
theorem load_state_default_on_missing_or_corrupt (fs : FS) (id : String)
    (h : fs (state_path id) = .absent ∨ fs (state_path id) = .malformed) :
    load_state fs id = default_state := by
  rcases h with h | h
  · exact load_state_of_absent fs id h
  · exact load_state_of_malformed fs id h

/-- Witness for C6: an empty state directory and an identifier needing
sanitization. -/
theorem load_state_default_on_missing_or_corrupt_witness :
    load_state fs_empty "any device!" = default_state :=
  load_state_default_on_missing_or_corrupt fs_empty "any device!" (Or.inl rfl)

/-- Claim C9 counterexample: a backing file containing the object
`need_image: true` (and nothing else) makes `load_state` return a record
with `need_image` truthy and empty `request_id` and `image_request` — the
claimed invariant does not hold for every backing file. -/
theorem load_state_invariant_violation_cx :
    need_image_invariant (load_state fs_need_only "dev") = false := by
  decide

/-- Claim C9 (amended): `load_state` performs no validation of the
`need_image` invariant against the backing file; the invariant is
guaranteed only on the recovery paths — with an absent or unparsable
backing file the default record is returned, which satisfies it
(`need_image` false). -/
theorem load_state_invariant_on_fallback (fs : FS) (id : String)
    (h : fs (state_path id) = .absent ∨ fs (state_path id) = .malformed) :
    need_image_invariant (load_state fs id) = true := by
  have hd : load_state fs id = default_state := by
    rcases h with h | h
    · exact load_state_of_absent fs id h
    · exact load_state_of_malformed fs id h
  rw [hd]
  decide

/-- Witness for C9 (amended) at a concrete empty directory. -/
theorem load_state_invariant_on_fallback_witness :
    need_image_invariant (load_state fs_empty "dev") = true :=
  load_state_invariant_on_fallback fs_empty "dev" (Or.inl rfl)

/-- Claim C10 counterexample: a backing file holding the JSON array
`[["need_image", true]]` — valid JSON that is not an object — does not
fall back to the default record: `dict.update` accepts a sequence of
key/value pairs, so the merge succeeds and `need_image` becomes true. -/
theorem load_state_pair_array_merge_cx :
    dget (load_state fs_pair_array "dev") "need_image" = some (.jbool true) ∧
    load_state fs_pair_array "dev" ≠ default_state := by
  refine ⟨rfl, fun h => ?_⟩
  have h1 : dget (load_state fs_pair_array "dev") "need_image"
      = some (JVal.jbool true) := rfl
  rw [h] at h1
  have h2 : dget default_state "need_image" = some (JVal.jbool false) := rfl
  rw [h2] at h1
  simp at h1

/-- Claim C10 (amended): for a backing file holding valid JSON that is
neither an object nor a non-empty array, `load_state` returns the
all-default DeviceState: falsy values (`null`, `false`, `0`, `""`, `[]`)
are replaced by an empty merge by `data or {}`, and truthy numbers,
booleans and strings make `dict.update` raise, which the fallback
catches.  (A non-empty array can merge successfully as a key/value-pair
sequence, per the counterexample.) -/
theorem load_state_default_on_nonobject (fs : FS) (id : String) (v : JVal)
    (hfile : fs (state_path id) = .json v)
    (hv : not_obj_nor_nonempty_arr v = true) :
    load_state fs id = default_state := by
  unfold load_state
  rw [hfile]
  cases v with
  | jnull => rfl
  | jbool b =>
    cases b
    · rfl
    · rfl
  | jnum n =>
    by_cases hn : n = 0
    · subst hn; rfl
    · have hb : (n == 0) = false := by simpa using hn
      simp [pyTruthy, hb, pyUpdate]
  | jstr s =>
    obtain ⟨l⟩ := s
    cases l
    · rfl
    · rfl
  | jarr xs =>
    cases xs
    · rfl
    · simp [not_obj_nor_nonempty_arr] at hv
  | jobj fields => simp [not_obj_nor_nonempty_arr] at hv

/-- Witness for C10 (amended): a backing file holding the number 7. -/
theorem load_state_default_on_nonobject_witness :
    load_state fs_number "dev" = default_state :=
  load_state_default_on_nonobject fs_number "dev" (.jnum 7) rfl rfl

/-- Claim C5: for every device identifier and every well-formed
DeviceState `S` (all schema fields present with JSON-representable
values; keys unique, as in any Python dict), `save_state(id, S)` followed
by `load_state(id)` returns a record equal to `S` — equality in the
Python-dict sense of same keys and same values. -/
theorem save_then_load_roundtrip (fs : FS) (id : String) (S : Dict)
    (hpres : schema_keys_present S = true)
    (hnd : (S.map Prod.fst).Nodup) :
    DictEq (load_state (save_state fs id S) id) S := by
  have hfile : save_state fs id S (state_path id) = .json (.jobj S) := by
    unfold save_state
    rw [if_pos rfl]
  have hSne : S ≠ [] := by
    intro hS
    subst hS
    simp [schema_keys_present, default_state, dget] at hpres
  have htruthy : pyTruthy (.jobj S) = true := by
    cases S with
    | nil => exact absurd rfl hSne
    | cons p rest => rfl
  have hload : load_state (save_state fs id S) id = dictUpdate default_state S := by
    unfold load_state
    rw [hfile]
    simp [htruthy, pyUpdate]
  rw [hload]
  intro k
  rw [dget_dictUpdate, lookupLast_eq_dget_of_nodup S hnd k]
  cases hS : dget S k with
  | some v => simp
  | none =>
    cases hd : dget default_state k with
    | none => simp [hd]
    | some w =>
      exfalso
      have hk : k ∈ default_state.map Prod.fst :=
        dget_some_key_mem default_state k w hd
      obtain ⟨p, hp, hpk⟩ := List.mem_map.mp hk
      have hall := List.all_eq_true.mp hpres p hp
      rw [hpk, hS] at hall
      simp at hall

/-- Witness for C5: round trip of the default record itself through an
empty directory. -/
theorem save_then_load_roundtrip_witness :
    DictEq (load_state (save_state fs_empty "dev-1" default_state) "dev-1")
      default_state :=
  save_then_load_roundtrip fs_empty "dev-1" default_state (by decide) (by decide)

/-- Claim C1 counterexample: a request carrying a non-empty `transcript`
in both the JSON body and the query string resolves to the query string's
value, not the JSON body's — the last `payload.update` call wins. -/
theorem get_payload_query_overrides_json_cx :
    get_payload true (some (.jobj [("transcript", .jstr "from-json")])) []
      [("transcript", "from-query")]
      = .ok [("transcript", .jstr "from-query")] := rfl

/-- Claim C1 (amended): field resolution in `get_payload` is
last-carrier-wins in the order JSON body, form body, query string — the
query string has highest precedence, and presence (not non-emptiness)
wins.  Whenever `get_payload` succeeds and a field is present in the
query string, the resolved value is the query string's value for it. -/
theorem get_payload_last_carrier_wins (is_json : Bool) (body : Option JVal)
    (form args : List (String × String)) (k v : String) (d : Dict)
    (hargs : lookupLast args k = some v)
    (hok : get_payload is_json body form args = .ok d) :
    dget d k = some (.jstr v) := by
  have hne : args.isEmpty = false := by
    cases args with
    | nil => simp [lookupLast] at hargs
    | cons a as => rfl
  unfold get_payload at hok
  cases hstep : json_step is_json body with
  | error e =>
    rw [hstep] at hok
    simp at hok
  | ok p1 =>
    rw [hstep] at hok
    simp only [hne, Bool.false_eq_true, if_false] at hok
    injection hok with hok'
    rw [← hok']
    rw [dget_dictUpdate, lookupLast_map args JVal.jstr k, hargs]
    rfl

/-- Witness for C1 (amended) at the concrete counterexample request. -/
theorem get_payload_last_carrier_wins_witness :
    dget [("transcript", JVal.jstr "from-query")] "transcript"
      = some (.jstr "from-query") :=
  get_payload_last_carrier_wins true
    (some (.jobj [("transcript", .jstr "from-json")]))
    [] [("transcript", "from-query")] "transcript" "from-query"
    [("transcript", JVal.jstr "from-query")] rfl rfl

theorem route_from_parsed_some (v : JVal) :
    route_from_parsed (some v) =
      if pyTruthy v then parsed_get_branch v
      else .error .invalidRouter := rfl

theorem decide_fields_ne_invalid (fields : Dict) :
    decide_fields fields ≠ .error .invalidRouter := by
  unfold decide_fields
  rcases py_or_empty_strip_shape (dget fields "image_request") with h1 | h1
  · rw [h1]
    rcases py_or_empty_strip_shape (dget fields "assistant_response") with h2 | h2
    · rw [h2]
      simp
    · rw [h2]
      simp
  · rw [h1]
    simp

theorem parsed_get_branch_ne_invalid (v : JVal) :
    parsed_get_branch v ≠ .error .invalidRouter := by
  cases v with
  | jobj fields => exact decide_fields_ne_invalid fields
  | jnull => simp [parsed_get_branch]
  | jbool b => simp [parsed_get_branch]
  | jnum n => simp [parsed_get_branch]
  | jstr s => simp [parsed_get_branch]
  | jarr xs => simp [parsed_get_branch]

/-- Claim C2 counterexample: a parsed JSON object whose `image_request`
holds the truthy non-string value 5 makes the decision stage raise an
`AttributeError` (Python: `(5).strip()` does not exist) instead of
producing a Decision. -/
theorem route_decision_nonstring_raises_cx :
    route_from_parsed (some (.jobj
      [("needs_image", .jbool true), ("image_request", .jnum 5),
       ("assistant_response", .jstr "ok")]))
      = .error .attributeError := rfl

/-- Claim C2 (amended): for every parsed JSON object that is non-empty
(a falsy empty object is caught by `if not parsed` and treated as "no
result") and whose `image_request` and `assistant_response` values are
strings or falsy, the decision stage raises nothing and produces a
Decision whose `needs_image` is the truthy coercion of its value (of any
type) and whose string fields are trimmed, defaulting to the empty
string; a truthy non-string value for either string field raises. -/
theorem route_decision_fields_ok (fields : Dict)
    (hne : fields ≠ [])
    (hir : is_str_or_falsy (dget fields "image_request") = true)
    (har : is_str_or_falsy (dget fields "assistant_response") = true) :
    route_from_parsed (some (.jobj fields)) =
      .ok ⟨pyTruthyOpt (dget fields "needs_image"),
           trim_or_empty (dget fields "image_request"),
           trim_or_empty (dget fields "assistant_response")⟩ := by
  have htruthy : pyTruthy (.jobj fields) = true := by
    cases fields with
    | nil => exact absurd rfl hne
    | cons p rest => rfl
  rw [route_from_parsed_some, if_pos htruthy]
  show decide_fields fields = _
  unfold decide_fields
  rw [py_or_empty_strip_of_str_or_falsy _ hir,
    py_or_empty_strip_of_str_or_falsy _ har]

/-- Witness for C2 (amended): truthy number for `needs_image`, padded
string for `image_request`, null for `assistant_response`. -/
theorem route_decision_fields_ok_witness :
    route_from_parsed (some (.jobj
      [("needs_image", .jnum 2), ("image_request", .jstr " desk "),
       ("assistant_response", .jnull)]))
      = .ok ⟨true, "desk", ""⟩ := by
  rw [route_decision_fields_ok _ (List.cons_ne_nil _ _) (by decide) (by decide)]
  rfl

/-- Claim C4 counterexample: the text of an empty JSON object is
syntactically valid JSON and parses successfully, yet `if not parsed`
treats the falsy empty dict as no result and raises the distinct
"Invalid router response" error. -/
theorem invalid_router_on_empty_object_cx :
    route_from_parsed (some (.jobj [])) = .error .invalidRouter := rfl

/-- Claim C4 (amended): the decision stage raises the distinct "Invalid
router response" error exactly when the normalized model output is not
valid JSON (the parse produced no value) or parses to a falsy value
(empty object or array, empty string, 0, false, or null).  Truthy valid
JSON never produces that distinct error — though a truthy non-object or
a truthy non-string field raises `AttributeError`, which the route also
surfaces as a 500, with a different message. -/
theorem invalid_router_error_iff_falsy_parse (parsed : Option JVal) :
    route_from_parsed parsed = .error .invalidRouter ↔
      (parsed = none ∨ ∃ v, parsed = some v ∧ pyTruthy v = false) := by
  cases parsed with
  | none => simp [route_from_parsed]
  | some v =>
    cases htv : pyTruthy v with
    | false =>
      constructor
      · intro _
        exact Or.inr ⟨v, rfl, htv⟩
      · intro _
        rw [route_from_parsed_some, if_neg (by simp [htv])]
    | true =>
      constructor
      · intro h
        rw [route_from_parsed_some, if_pos htv] at h
        exact absurd h (parsed_get_branch_ne_invalid v)
      · rintro (hc | ⟨w, hw, hwf⟩)
        · exact absurd hc (by simp)
        · injection hw with hw'
          subst hw'
          rw [htv] at hwf
          cases hwf

/-- Claim C3 evidence: handling a `POST /livi/transcript` request whose
routing decision has `needs_image` true returns the decision as the 200
body but performs no persistence at all — the handler contains no
`load_state` or `save_state` call, so the state directory after the
request is exactly the one before it and the device record is still the
all-default one rather than holding prompt, `image_request`,
`request_id` and `need_image = true` as specified. -/
theorem transcript_route_no_persistence :
    transcript_route fs_empty [("transcript", .jstr "What is on my desk")]
      (.ok ⟨true, "desk surface", ""⟩)
      = (fs_empty, .ok ⟨true, "desk surface", ""⟩) ∧
    load_state fs_empty "default" = default_state := by
  constructor
  · rfl
  · rfl

theorem texts_step_eq (a : List String) (c : ContentItem) :
    texts_step a c = a ++ (fragment_of c).toList := by
  cases hct : c.text with
  | none => simp [texts_step, fragment_of, hct]
  | some w =>
    cases w with
    | jstr t =>
      by_cases ht : pyStrip t = ""
      · simp [texts_step, fragment_of, hct, ht]
      · simp [texts_step, fragment_of, hct, ht]
    | jnull => simp [texts_step, fragment_of, hct]
    | jbool b => simp [texts_step, fragment_of, hct]
    | jnum n => simp [texts_step, fragment_of, hct]
    | jarr xs => simp [texts_step, fragment_of, hct]
    | jobj fields => simp [texts_step, fragment_of, hct]

theorem foldl_texts_step_eq (cs : List ContentItem) (a : List String) :
    cs.foldl texts_step a = a ++ cs.filterMap fragment_of := by
  induction cs generalizing a with
  | nil => simp
  | cons c rest ih =>
    simp only [List.foldl_cons, List.filterMap_cons]
    rw [ih (texts_step a c), texts_step_eq]
    cases hf : fragment_of c with
    | none => simp
    | some t => simp

theorem foldl_items_eq (items : List OutputItem) (a : List String) :
    items.foldl (fun acc item => (item.content.getD []).foldl texts_step acc) a
      = a ++ items.flatMap
          (fun item => (item.content.getD []).filterMap fragment_of) := by
  induction items generalizing a with
  | nil => simp
  | cons i rest ih =>
    simp only [List.foldl_cons, List.flatMap_cons]
    rw [foldl_texts_step_eq, ih]
    simp [List.append_assoc]

theorem router_texts_eq_spec (resp : ModelResp) :
    router_texts resp = spec_fragments resp := by
  unfold router_texts spec_fragments
  rw [foldl_items_eq]
  simp

/-- Claim C8: the Normalizer `get_output_text` is a total function over
every response shape — missing or `None` aggregated text, no output
segments at all, missing content lists, non-string text items — and
computes exactly the spec description: the aggregated text trimmed when
it is a string with non-whitespace content, otherwise the non-whitespace
fragments of the ordered output segments joined with newline and the
whole trimmed. -/
theorem get_output_text_matches_spec (resp : ModelResp) :
    get_output_text resp = normalizer_spec resp := by
  unfold get_output_text normalizer_spec
  rw [router_texts_eq_spec]
